import Mathlib

/-!
# daggerk3s: the `IntegrationTest` pipeline of `dagger/main.go`

A shallow embedding of `(*Daggerk3).IntegrationTest` and of the pieces of the Go
runtime it relies on (`fmt.Sprintf`, `fmt.Errorf`, the `error` interface), followed
by the properties of the five-step pipeline: ordering, short-circuiting on the first
failure, error wrapping, cluster-name defaulting and the layout of the report.

The Dagger client (`dag.K3S(..)`, `.Server().Start`, `.Kubectl(..).Sync`,
`.Kubectl(..).Stdout`) and the wall clock are external to the repository. They are
parameters of the embedding: a provider answers every call from the history of the
calls made before it, which covers every deterministic behaviour of a stateful
collaborator. Go strings are rendered as Lean strings.
-/

namespace Daggerk3

/-! ## Go runtime: errors and formatting -/

/-- Go `error` values. `errorString` is an error without `Unwrap` (as made by
`errors.New`); `wrapError` is the value `fmt.Errorf` builds for a format with one
`%w` operand: a rendered message together with the wrapped error. -/
inductive GoError where
  | errorString (s : String)
  | wrapError (msg : String) (err : GoError)
  deriving DecidableEq, Repr

/-- The method `Error()`. -/
def GoError.Error : GoError → String
  | .errorString s => s
  | .wrapError msg _ => msg

/-- The method `Unwrap()`, `none` where the error does not wrap another one. -/
def GoError.Unwrap : GoError → Option GoError
  | .errorString _ => none
  | .wrapError _ err => some err

/-- The scanning loop of `fmt`'s `doPrintf`, on the characters of the format.
Operands are given by the text the verbs `%s` and `%w` print for them (the string
itself, `Error()` for an error). `%s` consumes the next operand; `%w` does the same,
as under `fmt.Errorf`, the only place where `main.go` uses it; `%%` prints a percent
sign; a verb without operand prints `%!s(MISSING)` or `%!w(MISSING)`. The formats of
`main.go` contain no other directive; every other character is copied. -/
def sprintfAux : List Char → List String → List Char
  | [], _ => []
  | '%' :: 's' :: rest, a :: args => a.data ++ sprintfAux rest args
  | '%' :: 'w' :: rest, a :: args => a.data ++ sprintfAux rest args
  | '%' :: 's' :: rest, [] => "%!s(MISSING)".data ++ sprintfAux rest []
  | '%' :: 'w' :: rest, [] => "%!w(MISSING)".data ++ sprintfAux rest []
  | '%' :: '%' :: rest, args => '%' :: sprintfAux rest args
  | c :: rest, args => c :: sprintfAux rest args

/-- The function `fmt.Sprintf` on string operands. -/
def Sprintf (format : String) (args : List String) : String :=
  ⟨sprintfAux format.data args⟩

/-- The function `fmt.Errorf` for a format whose only operand is an error under
`%w`: the message is the rendered format, the result wraps the operand. -/
def Errorf (format : String) (err : GoError) : GoError :=
  .wrapError (Sprintf format [err.Error]) err

/-! ## The collaborators -/

/-- A call made on the Dagger client. Each one is made on the object
`dag.K3S(clusterName)`, so it carries the cluster name.
* `serverStart n` is `dag.K3S(n).Server().Start(ctx)`;
* `kubectlSync n cmd` is `dag.K3S(n).Kubectl(cmd).Sync(ctx)`;
* `kubectlStdout n cmd` is `dag.K3S(n).Kubectl(cmd).Stdout(ctx)`. -/
inductive Call where
  | serverStart (clusterName : String)
  | kubectlSync (clusterName : String) (cmd : String)
  | kubectlStdout (clusterName : String) (cmd : String)
  deriving DecidableEq, Repr

/-- The Cluster Provider: given the calls already made, in order, and the call being
made, it answers with an error or with the text the call produced (the standard
output for `Stdout`; for `Start` and `Sync`, whose Go results are a service and a
container, the text stands for that value). -/
abbrev Provider := List Call → Call → Except GoError String

/-- The wall clock: `time.Now().Format(time.RFC3339)` read after the given calls. -/
abbrev Clock := List Call → String

/-! ## `main.go` -/

def argoCDVersion : String := "v2.13.2"

def argoCDNS : String := "argocd"

/-- The Go result pair `(string, error)` of `IntegrationTest`, with the calls the run
made on the provider, oldest first. -/
structure Outcome where
  result : String
  err : Option GoError
  calls : List Call
  deriving DecidableEq, Repr

/-- The method `(*Daggerk3).IntegrationTest`. -/
def IntegrationTest (dag : Provider) (now : Clock) (clusterName : String) : Outcome :=
  let clusterName := if clusterName = "" then "argocd-test" else clusterName
  let start := Call.serverStart clusterName
  match dag [] start with
  | .error err => ⟨"", some (Errorf "failed to start k3s server: %w" err), [start]⟩
  | .ok _ =>
  let createCmd := Sprintf "create namespace %s" [argoCDNS]
  let create := Call.kubectlSync clusterName createCmd
  match dag [start] create with
  | .error err => ⟨"", some (Errorf "failed to create namespace: %w" err), [start, create]⟩
  | .ok _ =>
  let manifestURL :=
    Sprintf "https://raw.githubusercontent.com/argoproj/argo-cd/%s/manifests/install.yaml"
      [argoCDVersion]
  let applyCmd := Sprintf "apply -n %s -f %s" [argoCDNS, manifestURL]
  let apply := Call.kubectlStdout clusterName applyCmd
  match dag [start, create] apply with
  | .error err =>
    ⟨"", some (Errorf "failed to install ArgoCD: %w" err), [start, create, apply]⟩
  | .ok deployOutput =>
  let waitCmd :=
    Sprintf "wait --for=condition=available --timeout=300s --all deployments -n %s" [argoCDNS]
  let wait := Call.kubectlStdout clusterName waitCmd
  match dag [start, create, apply] wait with
  | .error err =>
    ⟨"", some (Errorf "ArgoCD failed to become ready: %w" err), [start, create, apply, wait]⟩
  | .ok waitOutput =>
  let statusCmd := Sprintf "get pods -n %s" [argoCDNS]
  let getPods := Call.kubectlStdout clusterName statusCmd
  match dag [start, create, apply, wait] getPods with
  | .error err =>
    ⟨"", some (Errorf "failed to get ArgoCD status: %w" err),
      [start, create, apply, wait, getPods]⟩
  | .ok status =>
  let result :=
    Sprintf
      "Integration Test Successful!\n\nCluster: %s\nTimestamp: %s\n\n=== Deployment Output ===\n%s\n\n=== Wait Output ===\n%s\n\n=== ArgoCD Pods ===\n%s"
      [clusterName, now [start, create, apply, wait, getPods], deployOutput, waitOutput, status]
  ⟨result, none, [start, create, apply, wait, getPods]⟩

/-! ## Vocabulary of the specification -/

/-- The cluster name a run works with: the fixed default for the empty string. -/
def effectiveName (clusterName : String) : String :=
  if clusterName = "" then "argocd-test" else clusterName

/-- The five steps of the pipeline, in order, as calls on the provider for the cluster
`name`: start server, create namespace, apply, wait, get pods. -/
def pipelineCalls (name : String) : List Call :=
  [ .serverStart name,
    .kubectlSync name "create namespace argocd",
    .kubectlStdout name
      "apply -n argocd -f https://raw.githubusercontent.com/argoproj/argo-cd/v2.13.2/manifests/install.yaml",
    .kubectlStdout name
      "wait --for=condition=available --timeout=300s --all deployments -n argocd",
    .kubectlStdout name "get pods -n argocd" ]

/-- The answer of the provider to step `k` (counted from 1) when the steps before it
have been made in order; `none` when `k` is not one of the five steps. -/
def stepAnswer (p : Provider) (name : String) : Nat → Option (Except GoError String)
  | 0 => none
  | k + 1 => ((pipelineCalls name)[k]?).map (p ((pipelineCalls name).take k))

/-- Every step succeeds, in order: the server start with `o1`, the namespace creation
with `o2`, the apply with `d`, the wait with `w` and the pod query with `s`. -/
def AllSucceed (p : Provider) (name : String) (o1 o2 d w s : String) : Prop :=
  stepAnswer p name 1 = some (.ok o1) ∧ stepAnswer p name 2 = some (.ok o2) ∧
  stepAnswer p name 3 = some (.ok d) ∧ stepAnswer p name 4 = some (.ok w) ∧
  stepAnswer p name 5 = some (.ok s)

/-- Steps `1` to `k - 1` succeed, in order, and step `k` fails with the cause `c`. -/
def FailsAt (p : Provider) (name : String) (k : Nat) (c : GoError) : Prop :=
  1 ≤ k ∧ k ≤ 5 ∧
  (∀ i, 1 ≤ i → i < k → ∃ out, stepAnswer p name i = some (.ok out)) ∧
  stepAnswer p name k = some (.error c)

/-- The cluster name a call is made for. -/
def Call.name : Call → String
  | .serverStart n => n
  | .kubectlSync n _ => n
  | .kubectlStdout n _ => n

/-- The command strings of the `kubectl` calls of a trace, in order. -/
def kubectlCommands : List Call → List String
  | [] => []
  | .serverStart _ :: rest => kubectlCommands rest
  | .kubectlSync _ cmd :: rest => cmd :: kubectlCommands rest
  | .kubectlStdout _ cmd :: rest => cmd :: kubectlCommands rest

/-- The stage descriptions of the five steps, in step order. -/
def stageDescriptions : List String :=
  [ "failed to start k3s server",
    "failed to create namespace",
    "failed to install ArgoCD",
    "ArgoCD failed to become ready",
    "failed to get ArgoCD status" ]

/-- The text of the success report for the given name, timestamp and outputs. -/
def reportText (name t d w s : String) : String :=
  "Integration Test Successful!\n\nCluster: " ++ name ++ "\nTimestamp: " ++ t
    ++ "\n\n=== Deployment Output ===\n" ++ d ++ "\n\n=== Wait Output ===\n" ++ w
    ++ "\n\n=== ArgoCD Pods ===\n" ++ s

/-! ## Test doubles for the scenarios of the specification -/

/-- A test double: the provider that answers the `i`-th call it receives with the
`i`-th entry of a script, whatever the call is. -/
def scripted (answers : List (Except GoError String)) : Provider := fun history _ =>
  answers.getD history.length (.error (.errorString "unexpected call"))

/-- Scenario A: every step succeeds with the outputs the specification lists. -/
def scenarioA : Provider :=
  scripted
    [ .ok "",
      .ok "ns/argocd created",
      .ok "customresourcedefinition.apiextensions.k8s.io/applications.argoproj.io created",
      .ok "deployment.apps/argocd-server condition met",
      .ok "argocd-server-xyz   1/1   Running" ]

/-- Scenario B: the namespace creation fails with `already exists`. -/
def scenarioB : Provider :=
  scripted [.ok "", .error (.errorString "already exists")]

/-- Scenario C: the readiness wait fails after the apply printed its output. -/
def scenarioC : Provider :=
  scripted
    [ .ok "",
      .ok "ns/argocd created",
      .ok "deployment.apps/argocd-server created",
      .error (.errorString "timed out waiting for the condition") ]

/-- The four `kubectl` commands of the pipeline, in the order they are issued. -/
def fixedCommands : List String :=
  [ "create namespace argocd",
    "apply -n argocd -f https://raw.githubusercontent.com/argoproj/argo-cd/v2.13.2/manifests/install.yaml",
    "wait --for=condition=available --timeout=300s --all deployments -n argocd",
    "get pods -n argocd" ]

/-- A run in which the first four steps succeed and the pod query fails. -/
def scenarioD : Provider :=
  scripted
    [ .ok "",
      .ok "ns/argocd created",
      .ok "deployment.apps/argocd-server created",
      .ok "deployment.apps/argocd-server condition met",
      .error (.errorString "connection refused") ]

/-- A clock that reads the same instant whenever it is asked. -/
def fixedClock (t : String) : Clock := fun _ => t

set_option maxRecDepth 100000

/-! ## Formatting lemmas -/

theorem createCmd_eq : Sprintf "create namespace %s" [argoCDNS] = "create namespace argocd" := by
  decide

theorem applyCmd_eq :
    Sprintf "apply -n %s -f %s"
      [argoCDNS,
        Sprintf "https://raw.githubusercontent.com/argoproj/argo-cd/%s/manifests/install.yaml"
          [argoCDVersion]]
      = "apply -n argocd -f https://raw.githubusercontent.com/argoproj/argo-cd/v2.13.2/manifests/install.yaml" := by
  decide

theorem waitCmd_eq :
    Sprintf "wait --for=condition=available --timeout=300s --all deployments -n %s" [argoCDNS]
      = "wait --for=condition=available --timeout=300s --all deployments -n argocd" := by
  decide

theorem statusCmd_eq : Sprintf "get pods -n %s" [argoCDNS] = "get pods -n argocd" := by
  decide

theorem errorf_start (c : GoError) :
    Errorf "failed to start k3s server: %w" c
      = .wrapError ("failed to start k3s server" ++ ": " ++ c.Error) c := by
  simp only [Errorf, GoError.wrapError.injEq, and_true]
  apply String.ext
  simp [Sprintf, sprintfAux]

theorem errorf_create (c : GoError) :
    Errorf "failed to create namespace: %w" c
      = .wrapError ("failed to create namespace" ++ ": " ++ c.Error) c := by
  simp only [Errorf, GoError.wrapError.injEq, and_true]
  apply String.ext
  simp [Sprintf, sprintfAux]

theorem errorf_install (c : GoError) :
    Errorf "failed to install ArgoCD: %w" c
      = .wrapError ("failed to install ArgoCD" ++ ": " ++ c.Error) c := by
  simp only [Errorf, GoError.wrapError.injEq, and_true]
  apply String.ext
  simp [Sprintf, sprintfAux]

theorem errorf_ready (c : GoError) :
    Errorf "ArgoCD failed to become ready: %w" c
      = .wrapError ("ArgoCD failed to become ready" ++ ": " ++ c.Error) c := by
  simp only [Errorf, GoError.wrapError.injEq, and_true]
  apply String.ext
  simp [Sprintf, sprintfAux]

theorem errorf_status (c : GoError) :
    Errorf "failed to get ArgoCD status: %w" c
      = .wrapError ("failed to get ArgoCD status" ++ ": " ++ c.Error) c := by
  simp only [Errorf, GoError.wrapError.injEq, and_true]
  apply String.ext
  simp [Sprintf, sprintfAux]

theorem report_eq (name t d w s : String) :
    Sprintf
      "Integration Test Successful!\n\nCluster: %s\nTimestamp: %s\n\n=== Deployment Output ===\n%s\n\n=== Wait Output ===\n%s\n\n=== ArgoCD Pods ===\n%s"
      [name, t, d, w, s]
      = "Integration Test Successful!\n\nCluster: " ++ name ++ "\nTimestamp: " ++ t
        ++ "\n\n=== Deployment Output ===\n" ++ d ++ "\n\n=== Wait Output ===\n" ++ w
        ++ "\n\n=== ArgoCD Pods ===\n" ++ s := by
  apply String.ext
  simp [Sprintf, sprintfAux]

/-! ## The shape of a run -/

theorem run_fail_1 (p : Provider) (now : Clock) (n : String) (c : GoError)
    (h1 : stepAnswer p (effectiveName n) 1 = some (.error c)) :
    IntegrationTest p now n
      = ⟨"", some (.wrapError ("failed to start k3s server" ++ ": " ++ c.Error) c),
          (pipelineCalls (effectiveName n)).take 1⟩ := by
  simp [stepAnswer, pipelineCalls, effectiveName] at h1
  simp [IntegrationTest, h1, errorf_start, pipelineCalls, effectiveName]

theorem run_fail_2 (p : Provider) (now : Clock) (n : String) (o1 : String) (c : GoError)
    (h1 : stepAnswer p (effectiveName n) 1 = some (.ok o1))
    (h2 : stepAnswer p (effectiveName n) 2 = some (.error c)) :
    IntegrationTest p now n
      = ⟨"", some (.wrapError ("failed to create namespace" ++ ": " ++ c.Error) c),
          (pipelineCalls (effectiveName n)).take 2⟩ := by
  simp [stepAnswer, pipelineCalls, effectiveName] at h1 h2
  simp [IntegrationTest, h1, h2, errorf_create, pipelineCalls, effectiveName, createCmd_eq]

theorem run_fail_3 (p : Provider) (now : Clock) (n : String) (o1 o2 : String) (c : GoError)
    (h1 : stepAnswer p (effectiveName n) 1 = some (.ok o1))
    (h2 : stepAnswer p (effectiveName n) 2 = some (.ok o2))
    (h3 : stepAnswer p (effectiveName n) 3 = some (.error c)) :
    IntegrationTest p now n
      = ⟨"", some (.wrapError ("failed to install ArgoCD" ++ ": " ++ c.Error) c),
          (pipelineCalls (effectiveName n)).take 3⟩ := by
  simp [stepAnswer, pipelineCalls, effectiveName] at h1 h2 h3
  simp [IntegrationTest, h1, h2, h3, errorf_install, pipelineCalls, effectiveName,
    createCmd_eq, applyCmd_eq]

theorem run_fail_4 (p : Provider) (now : Clock) (n : String) (o1 o2 d : String) (c : GoError)
    (h1 : stepAnswer p (effectiveName n) 1 = some (.ok o1))
    (h2 : stepAnswer p (effectiveName n) 2 = some (.ok o2))
    (h3 : stepAnswer p (effectiveName n) 3 = some (.ok d))
    (h4 : stepAnswer p (effectiveName n) 4 = some (.error c)) :
    IntegrationTest p now n
      = ⟨"", some (.wrapError ("ArgoCD failed to become ready" ++ ": " ++ c.Error) c),
          (pipelineCalls (effectiveName n)).take 4⟩ := by
  simp [stepAnswer, pipelineCalls, effectiveName] at h1 h2 h3 h4
  simp [IntegrationTest, h1, h2, h3, h4, errorf_ready, pipelineCalls, effectiveName,
    createCmd_eq, applyCmd_eq, waitCmd_eq]

theorem run_fail_5 (p : Provider) (now : Clock) (n : String) (o1 o2 d w : String) (c : GoError)
    (h1 : stepAnswer p (effectiveName n) 1 = some (.ok o1))
    (h2 : stepAnswer p (effectiveName n) 2 = some (.ok o2))
    (h3 : stepAnswer p (effectiveName n) 3 = some (.ok d))
    (h4 : stepAnswer p (effectiveName n) 4 = some (.ok w))
    (h5 : stepAnswer p (effectiveName n) 5 = some (.error c)) :
    IntegrationTest p now n
      = ⟨"", some (.wrapError ("failed to get ArgoCD status" ++ ": " ++ c.Error) c),
          (pipelineCalls (effectiveName n)).take 5⟩ := by
  simp [stepAnswer, pipelineCalls, effectiveName] at h1 h2 h3 h4 h5
  simp [IntegrationTest, h1, h2, h3, h4, h5, errorf_status, pipelineCalls, effectiveName,
    createCmd_eq, applyCmd_eq, waitCmd_eq, statusCmd_eq]

theorem run_ok (p : Provider) (now : Clock) (n : String) (o1 o2 d w s : String)
    (h : AllSucceed p (effectiveName n) o1 o2 d w s) :
    IntegrationTest p now n
      = ⟨reportText (effectiveName n) (now (pipelineCalls (effectiveName n))) d w s, none,
          pipelineCalls (effectiveName n)⟩ := by
  obtain ⟨h1, h2, h3, h4, h5⟩ := h
  simp [stepAnswer, pipelineCalls, effectiveName] at h1 h2 h3 h4 h5
  simp [IntegrationTest, h1, h2, h3, h4, h5, report_eq, reportText, pipelineCalls,
    effectiveName, createCmd_eq, applyCmd_eq, waitCmd_eq, statusCmd_eq]

theorem stepAnswer_isSome (p : Provider) (name : String) (k : Nat) (h1 : 1 ≤ k) (h5 : k ≤ 5) :
    ∃ r, stepAnswer p name k = some r := by
  interval_cases k <;> exact ⟨_, rfl⟩

/-- Every run fails at one of the five steps or succeeds at all of them. -/
theorem run_cases (p : Provider) (name : String) :
    (∃ k c, FailsAt p name k c) ∨ (∃ o1 o2 d w s, AllSucceed p name o1 o2 d w s) := by
  obtain ⟨r1, h1⟩ := stepAnswer_isSome p name 1 (by omega) (by omega)
  obtain ⟨r2, h2⟩ := stepAnswer_isSome p name 2 (by omega) (by omega)
  obtain ⟨r3, h3⟩ := stepAnswer_isSome p name 3 (by omega) (by omega)
  obtain ⟨r4, h4⟩ := stepAnswer_isSome p name 4 (by omega) (by omega)
  obtain ⟨r5, h5⟩ := stepAnswer_isSome p name 5 (by omega) (by omega)
  rcases r1 with c | o1
  · refine Or.inl ⟨1, c, by omega, by omega, fun i hi hlt => ?_, h1⟩
    omega
  rcases r2 with c | o2
  · refine Or.inl ⟨2, c, by omega, by omega, fun i hi hlt => ?_, h2⟩
    interval_cases i
    exact ⟨_, h1⟩
  rcases r3 with c | d
  · refine Or.inl ⟨3, c, by omega, by omega, fun i hi hlt => ?_, h3⟩
    interval_cases i
    · exact ⟨_, h1⟩
    · exact ⟨_, h2⟩
  rcases r4 with c | w
  · refine Or.inl ⟨4, c, by omega, by omega, fun i hi hlt => ?_, h4⟩
    interval_cases i
    · exact ⟨_, h1⟩
    · exact ⟨_, h2⟩
    · exact ⟨_, h3⟩
  rcases r5 with c | s
  · refine Or.inl ⟨5, c, by omega, by omega, fun i hi hlt => ?_, h5⟩
    interval_cases i
    · exact ⟨_, h1⟩
    · exact ⟨_, h2⟩
    · exact ⟨_, h3⟩
    · exact ⟨_, h4⟩
  exact Or.inr ⟨o1, o2, d, w, s, h1, h2, h3, h4, h5⟩

/-- The outcome of a run that fails at step `k` with cause `c`: no report, the cause
wrapped under the description of the stage, and the first `k` calls made. -/
theorem run_failsAt (p : Provider) (now : Clock) (n : String) (k : Nat) (c : GoError)
    (h : FailsAt p (effectiveName n) k c) :
    ∃ d, stageDescriptions[k - 1]? = some d ∧
      IntegrationTest p now n
        = ⟨"", some (.wrapError (d ++ ": " ++ c.Error) c),
            (pipelineCalls (effectiveName n)).take k⟩ := by
  obtain ⟨hk1, hk5, hprev, hfail⟩ := h
  interval_cases k
  · exact ⟨_, rfl, run_fail_1 p now n c hfail⟩
  · obtain ⟨o1, h1⟩ := hprev 1 (by omega) (by omega)
    exact ⟨_, rfl, run_fail_2 p now n o1 c h1 hfail⟩
  · obtain ⟨o1, h1⟩ := hprev 1 (by omega) (by omega)
    obtain ⟨o2, h2⟩ := hprev 2 (by omega) (by omega)
    exact ⟨_, rfl, run_fail_3 p now n o1 o2 c h1 h2 hfail⟩
  · obtain ⟨o1, h1⟩ := hprev 1 (by omega) (by omega)
    obtain ⟨o2, h2⟩ := hprev 2 (by omega) (by omega)
    obtain ⟨d, h3⟩ := hprev 3 (by omega) (by omega)
    exact ⟨_, rfl, run_fail_4 p now n o1 o2 d c h1 h2 h3 hfail⟩
  · obtain ⟨o1, h1⟩ := hprev 1 (by omega) (by omega)
    obtain ⟨o2, h2⟩ := hprev 2 (by omega) (by omega)
    obtain ⟨d, h3⟩ := hprev 3 (by omega) (by omega)
    obtain ⟨w, h4⟩ := hprev 4 (by omega) (by omega)
    exact ⟨_, rfl, run_fail_5 p now n o1 o2 d w c h1 h2 h3 h4 hfail⟩

/-- A run cannot both fail at a step and succeed at all five. -/
theorem failsAt_not_allSucceed (p : Provider) (name : String) (k : Nat) (c : GoError)
    (o1 o2 d w s : String) (hf : FailsAt p name k c) (hs : AllSucceed p name o1 o2 d w s) :
    False := by
  obtain ⟨hk1, hk5, -, hfail⟩ := hf
  obtain ⟨h1, h2, h3, h4, h5⟩ := hs
  interval_cases k
  · rw [h1] at hfail; cases hfail
  · rw [h2] at hfail; cases hfail
  · rw [h3] at hfail; cases hfail
  · rw [h4] at hfail; cases hfail
  · rw [h5] at hfail; cases hfail

/-- Messages of two different stages differ, whatever the causes. -/
theorem stage_message_ne (a b : Nat) (da db x y : String)
    (ha : stageDescriptions[a]? = some da) (hb : stageDescriptions[b]? = some db)
    (hab : a ≠ b) : da ++ ": " ++ x ≠ db ++ ": " ++ y := by
  have ha5 : a < 5 := by
    by_contra hge
    have : stageDescriptions[a]? = none := List.getElem?_eq_none (by simp [stageDescriptions]; omega)
    rw [this] at ha; cases ha
  have hb5 : b < 5 := by
    by_contra hge
    have : stageDescriptions[b]? = none := List.getElem?_eq_none (by simp [stageDescriptions]; omega)
    rw [this] at hb; cases hb
  intro h
  have h := congrArg String.data h
  interval_cases a <;> interval_cases b <;>
    first
    | exact absurd rfl hab
    | (simp [stageDescriptions] at ha hb
       subst ha hb
       simp at h)

theorem reportText_ne_empty (name t d w s : String) : reportText name t d w s ≠ "" := by
  intro h
  have h := congrArg String.data h
  simp [reportText] at h

theorem pipelineCalls_nodup (name : String) : (pipelineCalls name).Nodup := by
  simp [pipelineCalls]

/-- A run fails at one step at most. -/
theorem failsAt_unique (p : Provider) (name : String) (k k' : Nat) (c c' : GoError)
    (h : FailsAt p name k c) (h' : FailsAt p name k' c') : k = k' := by
  obtain ⟨hk1, -, hprev, hfail⟩ := h
  obtain ⟨hk1', -, hprev', hfail'⟩ := h'
  rcases Nat.lt_trichotomy k k' with hlt | heq | hgt
  · obtain ⟨out, hout⟩ := hprev' k hk1 hlt
    rw [hout] at hfail
    cases hfail
  · exact heq
  · obtain ⟨out, hout⟩ := hprev k' hk1' hgt
    rw [hout] at hfail'
    cases hfail'

/-- The commands among the first `k` calls of the pipeline are the first `k - 1` of the
four fixed commands. -/
theorem kubectlCommands_take (name : String) (k : Nat) (hk : k ≤ 5) :
    kubectlCommands ((pipelineCalls name).take k) = fixedCommands.take (k - 1) := by
  interval_cases k <;> simp [pipelineCalls, kubectlCommands, fixedCommands]

theorem run_commands_failsAt (p : Provider) (now : Clock) (n : String) (k : Nat) (c : GoError)
    (h : FailsAt p (effectiveName n) k c) :
    kubectlCommands (IntegrationTest p now n).calls = fixedCommands.take (k - 1) := by
  obtain ⟨desc, -, hrun⟩ := run_failsAt p now n k c h
  rw [hrun]
  exact kubectlCommands_take _ k h.2.1

theorem run_commands_ok (p : Provider) (now : Clock) (n o1 o2 d w s : String)
    (h : AllSucceed p (effectiveName n) o1 o2 d w s) :
    kubectlCommands (IntegrationTest p now n).calls = fixedCommands := by
  rw [run_ok p now n o1 o2 d w s h]
  simp [pipelineCalls, kubectlCommands, fixedCommands]

/-! ## The claims -/

/-- C1: for every cluster name, provider and clock, `IntegrationTest` returns a nil
error if and only if all five steps succeed in order; then the report is not empty,
and in every other case it returns an error and the empty string as report. -/
theorem integrationTest_report_iff_all_steps_succeed (p : Provider) (now : Clock)
    (n : String) :
    ((IntegrationTest p now n).err = none ↔
      ∃ o1 o2 d w s, AllSucceed p (effectiveName n) o1 o2 d w s) ∧
    ((IntegrationTest p now n).err = none → (IntegrationTest p now n).result ≠ "") ∧
    ((IntegrationTest p now n).err ≠ none →
      (∃ e, (IntegrationTest p now n).err = some e) ∧ (IntegrationTest p now n).result = "") := by
  rcases run_cases p (effectiveName n) with ⟨k, c, hf⟩ | ⟨o1, o2, d, w, s, hs⟩
  · obtain ⟨desc, -, hrun⟩ := run_failsAt p now n k c hf
    refine ⟨⟨fun h => ?_, fun ⟨o1, o2, d, w, s, hs⟩ => ?_⟩, fun h => ?_, fun _ => ?_⟩
    · rw [hrun] at h; cases h
    · exact (failsAt_not_allSucceed p _ k c o1 o2 d w s hf hs).elim
    · rw [hrun] at h; cases h
    · rw [hrun]; exact ⟨⟨_, rfl⟩, rfl⟩
  · have hrun := run_ok p now n o1 o2 d w s hs
    refine ⟨⟨fun _ => ⟨o1, o2, d, w, s, hs⟩, fun _ => ?_⟩, fun _ => ?_, fun h => ?_⟩
    · rw [hrun]
    · rw [hrun]; exact reportText_ne_empty _ _ _ _ _
    · rw [hrun] at h; exact (h rfl).elim

/-- C2: when steps 1 to k-1 succeed and step k fails with cause `c`, the run makes
exactly the first k calls of the pipeline and none of the later ones, returns no
report, and returns an error that wraps `c` and whose message is the description of
stage k, then `": "`, then the message of `c`. -/
theorem integrationTest_fails_at_step (p : Provider) (now : Clock) (n : String) (k : Nat)
    (c : GoError) (h : FailsAt p (effectiveName n) k c) :
    (IntegrationTest p now n).calls = (pipelineCalls (effectiveName n)).take k ∧
    (∀ later ∈ (pipelineCalls (effectiveName n)).drop k,
      later ∉ (IntegrationTest p now n).calls) ∧
    (IntegrationTest p now n).result = "" ∧
    ∃ e desc, (IntegrationTest p now n).err = some e ∧
      stageDescriptions[k - 1]? = some desc ∧
      e.Unwrap = some c ∧ e.Error = desc ++ ": " ++ c.Error := by
  obtain ⟨desc, hdesc, hrun⟩ := run_failsAt p now n k c h
  rw [hrun]
  refine ⟨rfl, fun later hl hin => ?_, rfl, _, desc, rfl, hdesc, rfl, rfl⟩
  exact List.disjoint_take_drop (pipelineCalls_nodup _) (le_refl k) hin hl

/-- Scenario B as an instance of C2: the namespace creation fails with
`already exists`; only the server start and the namespace creation are called and the
message is `failed to create namespace: already exists`. -/
theorem integrationTest_fails_at_step_witness :
    ((IntegrationTest scenarioB (fixedClock "2024-12-20T10:15:30Z") "").calls
        = (pipelineCalls (effectiveName "")).take 2 ∧
      (∀ later ∈ (pipelineCalls (effectiveName "")).drop 2,
        later ∉ (IntegrationTest scenarioB (fixedClock "2024-12-20T10:15:30Z") "").calls) ∧
      (IntegrationTest scenarioB (fixedClock "2024-12-20T10:15:30Z") "").result = "" ∧
      ∃ e desc, (IntegrationTest scenarioB (fixedClock "2024-12-20T10:15:30Z") "").err = some e ∧
        stageDescriptions[2 - 1]? = some desc ∧
        e.Unwrap = some (.errorString "already exists") ∧
        e.Error = desc ++ ": " ++ (GoError.errorString "already exists").Error) ∧
    IntegrationTest scenarioB (fixedClock "2024-12-20T10:15:30Z") ""
      = ⟨"", some (.wrapError "failed to create namespace: already exists"
                (.errorString "already exists")),
          [.serverStart "argocd-test", .kubectlSync "argocd-test" "create namespace argocd"]⟩ :=
  ⟨integrationTest_fails_at_step scenarioB (fixedClock "2024-12-20T10:15:30Z") "" 2
      (.errorString "already exists")
      ⟨by decide, by decide,
        fun i h1 h2 => by
          have hi : i = 1 := by omega
          subst hi
          exact ⟨"", rfl⟩,
        rfl⟩,
    by decide⟩

/-- C3: the run works with `argocd-test` when the given name is empty and with the
given name otherwise: the server is started for that name, every call is made for it,
a successful report prints it after `Cluster: `, and a run with the empty name is the
run with `argocd-test`, so the empty name causes no error by itself. -/
theorem integrationTest_effective_cluster_name (p : Provider) (now : Clock) (n : String) :
    (IntegrationTest p now n).calls.head?
        = some (.serverStart (if n = "" then "argocd-test" else n)) ∧
    (∀ call ∈ (IntegrationTest p now n).calls,
      call.name = (if n = "" then "argocd-test" else n)) ∧
    ((IntegrationTest p now n).err = none →
      ∃ rest, (IntegrationTest p now n).result
        = "Integration Test Successful!\n\nCluster: "
          ++ (if n = "" then "argocd-test" else n) ++ "\nTimestamp: " ++ rest) ∧
    IntegrationTest p now "" = IntegrationTest p now "argocd-test" := by
  have hcalls : ∀ k, 1 ≤ k → k ≤ 5 →
      ((pipelineCalls (effectiveName n)).take k).head?
          = some (.serverStart (if n = "" then "argocd-test" else n)) ∧
        ∀ call ∈ (pipelineCalls (effectiveName n)).take k,
          call.name = (if n = "" then "argocd-test" else n) := by
    intro k h1 h5
    interval_cases k <;> simp [pipelineCalls, effectiveName, Call.name]
  refine ⟨?_, ?_, ?_, ?_⟩
  · rcases run_cases p (effectiveName n) with ⟨k, c, hf⟩ | ⟨o1, o2, d, w, s, hs⟩
    · obtain ⟨desc, -, hrun⟩ := run_failsAt p now n k c hf
      rw [hrun]
      exact (hcalls k hf.1 hf.2.1).1
    · rw [run_ok p now n o1 o2 d w s hs]
      exact (hcalls 5 (by omega) (by omega)).1
  · rcases run_cases p (effectiveName n) with ⟨k, c, hf⟩ | ⟨o1, o2, d, w, s, hs⟩
    · obtain ⟨desc, -, hrun⟩ := run_failsAt p now n k c hf
      rw [hrun]
      exact (hcalls k hf.1 hf.2.1).2
    · rw [run_ok p now n o1 o2 d w s hs]
      exact (hcalls 5 (by omega) (by omega)).2
  · rcases run_cases p (effectiveName n) with ⟨k, c, hf⟩ | ⟨o1, o2, d, w, s, hs⟩
    · obtain ⟨desc, -, hrun⟩ := run_failsAt p now n k c hf
      rw [hrun]
      intro h
      cases h
    · rw [run_ok p now n o1 o2 d w s hs]
      intro _
      refine ⟨now (pipelineCalls (effectiveName n)) ++ "\n\n=== Deployment Output ===\n" ++ d
        ++ "\n\n=== Wait Output ===\n" ++ w ++ "\n\n=== ArgoCD Pods ===\n" ++ s, ?_⟩
      simp [reportText, effectiveName, String.append_assoc]
  · simp [IntegrationTest]

/-- C4: when all five steps succeed with apply output `d`, wait output `w` and pod
status `s`, the run returns a nil error and the report is the banner, a blank line,
`Cluster: ` and the effective name, `Timestamp: ` and the clock reading at completion,
a blank line, then the sections `=== Deployment Output ===` with `d`,
`=== Wait Output ===` with `w` and `=== ArgoCD Pods ===` with `s`, separated by blank
lines, in this order. -/
theorem integrationTest_report_layout (p : Provider) (now : Clock) (n o1 o2 d w s : String)
    (h : AllSucceed p (effectiveName n) o1 o2 d w s) :
    (IntegrationTest p now n).err = none ∧
    (IntegrationTest p now n).result
      = "Integration Test Successful!\n" ++ "\n"
        ++ "Cluster: " ++ effectiveName n ++ "\n"
        ++ "Timestamp: " ++ now (pipelineCalls (effectiveName n)) ++ "\n" ++ "\n"
        ++ "=== Deployment Output ===\n" ++ d ++ "\n" ++ "\n"
        ++ "=== Wait Output ===\n" ++ w ++ "\n" ++ "\n"
        ++ "=== ArgoCD Pods ===\n" ++ s := by
  rw [run_ok p now n o1 o2 d w s h]
  refine ⟨rfl, ?_⟩
  apply String.ext
  simp [reportText]

/-- Scenario A as an instance of C4: the full text of the report. -/
theorem integrationTest_report_layout_witness :
    (IntegrationTest scenarioA (fixedClock "2024-12-20T10:15:30Z") "").err = none ∧
    (IntegrationTest scenarioA (fixedClock "2024-12-20T10:15:30Z") "").result
      = "Integration Test Successful!\n" ++ "\n"
        ++ "Cluster: " ++ "argocd-test" ++ "\n"
        ++ "Timestamp: " ++ "2024-12-20T10:15:30Z" ++ "\n" ++ "\n"
        ++ "=== Deployment Output ===\n"
        ++ "customresourcedefinition.apiextensions.k8s.io/applications.argoproj.io created"
        ++ "\n" ++ "\n"
        ++ "=== Wait Output ===\n" ++ "deployment.apps/argocd-server condition met"
        ++ "\n" ++ "\n"
        ++ "=== ArgoCD Pods ===\n" ++ "argocd-server-xyz   1/1   Running" :=
  integrationTest_report_layout scenarioA (fixedClock "2024-12-20T10:15:30Z") ""
    "" "ns/argocd created"
    "customresourcedefinition.apiextensions.k8s.io/applications.argoproj.io created"
    "deployment.apps/argocd-server condition met" "argocd-server-xyz   1/1   Running"
    ⟨rfl, rfl, rfl, rfl, rfl⟩

/-- C5, as the specification states it, fails in Scenario A: the run succeeds and the
output of the namespace creation, `ns/argocd created`, occurs nowhere in the report. -/
theorem integrationTest_namespace_output_absent :
    AllSucceed scenarioA (effectiveName "") "" "ns/argocd created"
      "customresourcedefinition.apiextensions.k8s.io/applications.argoproj.io created"
      "deployment.apps/argocd-server condition met" "argocd-server-xyz   1/1   Running" ∧
    (IntegrationTest scenarioA (fixedClock "2024-12-20T10:15:30Z") "").err = none ∧
    ¬ ("ns/argocd created".data <:+:
        (IntegrationTest scenarioA (fixedClock "2024-12-20T10:15:30Z") "").result.data) := by
  refine ⟨⟨rfl, rfl, rfl, rfl, rfl⟩, by decide, ?_⟩
  decide

/-- C5, amended: on a successful run the report prints the cluster name and ends with
the three sections, each title followed by the output captured by its step (apply,
wait, pod query); the output of the namespace creation is not captured, so a provider
that differs only in the outputs of the first two steps gets the same report. -/
theorem integrationTest_captured_outputs_in_sections (p : Provider) (now : Clock)
    (n o1 o2 d w s : String) (h : AllSucceed p (effectiveName n) o1 o2 d w s) :
    ("Cluster: " ++ effectiveName n ++ "\n").data <:+: (IntegrationTest p now n).result.data ∧
    ("=== Deployment Output ===\n" ++ d ++ "\n\n=== Wait Output ===\n" ++ w
        ++ "\n\n=== ArgoCD Pods ===\n" ++ s).data <:+ (IntegrationTest p now n).result.data ∧
    ∀ q o1' o2', AllSucceed q (effectiveName n) o1' o2' d w s →
      (IntegrationTest q now n).result = (IntegrationTest p now n).result := by
  rw [run_ok p now n o1 o2 d w s h]
  refine ⟨⟨"Integration Test Successful!\n\n".data,
      ("Timestamp: " ++ now (pipelineCalls (effectiveName n))
        ++ "\n\n=== Deployment Output ===\n" ++ d ++ "\n\n=== Wait Output ===\n" ++ w
        ++ "\n\n=== ArgoCD Pods ===\n" ++ s).data, ?_⟩,
    ⟨("Integration Test Successful!\n\nCluster: " ++ effectiveName n ++ "\nTimestamp: "
        ++ now (pipelineCalls (effectiveName n)) ++ "\n\n").data, ?_⟩, ?_⟩
  · simp [reportText]
  · simp [reportText]
  · intro q o1' o2' hq
    rw [run_ok q now n o1' o2' d w s hq]

/-- Scenario A as an instance of the amended C5: the report mentions the cluster
`argocd-test` and ends with the three sections holding the three captured outputs. -/
theorem integrationTest_captured_outputs_in_sections_witness :
    ("Cluster: " ++ effectiveName "" ++ "\n").data
      <:+: (IntegrationTest scenarioA (fixedClock "2024-12-20T10:15:30Z") "").result.data ∧
    ("=== Deployment Output ===\n"
        ++ "customresourcedefinition.apiextensions.k8s.io/applications.argoproj.io created"
        ++ "\n\n=== Wait Output ===\n" ++ "deployment.apps/argocd-server condition met"
        ++ "\n\n=== ArgoCD Pods ===\n" ++ "argocd-server-xyz   1/1   Running").data
      <:+ (IntegrationTest scenarioA (fixedClock "2024-12-20T10:15:30Z") "").result.data ∧
    ∀ q o1' o2', AllSucceed q (effectiveName "") o1' o2'
        "customresourcedefinition.apiextensions.k8s.io/applications.argoproj.io created"
        "deployment.apps/argocd-server condition met" "argocd-server-xyz   1/1   Running" →
      (IntegrationTest q (fixedClock "2024-12-20T10:15:30Z") "").result
        = (IntegrationTest scenarioA (fixedClock "2024-12-20T10:15:30Z") "").result :=
  integrationTest_captured_outputs_in_sections scenarioA (fixedClock "2024-12-20T10:15:30Z") ""
    "" "ns/argocd created"
    "customresourcedefinition.apiextensions.k8s.io/applications.argoproj.io created"
    "deployment.apps/argocd-server condition met" "argocd-server-xyz   1/1   Running"
    ⟨rfl, rfl, rfl, rfl, rfl⟩

/-- C6: whenever `IntegrationTest` returns an error, the string returned with it is
empty, whatever the earlier steps had printed. -/
theorem integrationTest_no_partial_report (p : Provider) (now : Clock) (n : String)
    (e : GoError) (h : (IntegrationTest p now n).err = some e) :
    (IntegrationTest p now n).result = "" := by
  rcases run_cases p (effectiveName n) with ⟨k, c, hf⟩ | ⟨o1, o2, d, w, s, hs⟩
  · obtain ⟨desc, -, hrun⟩ := run_failsAt p now n k c hf
    rw [hrun]
  · rw [run_ok p now n o1 o2 d w s hs] at h
    cases h

/-- Scenario C as an instance of C6: the wait fails after the apply printed its output,
and the returned string is empty. -/
theorem integrationTest_no_partial_report_witness :
    (IntegrationTest scenarioC (fixedClock "2024-12-20T10:15:30Z") "").err
      = some (.wrapError "ArgoCD failed to become ready: timed out waiting for the condition"
          (.errorString "timed out waiting for the condition")) ∧
    (IntegrationTest scenarioC (fixedClock "2024-12-20T10:15:30Z") "").result = "" :=
  ⟨by decide,
    integrationTest_no_partial_report scenarioC (fixedClock "2024-12-20T10:15:30Z") ""
      (.wrapError "ArgoCD failed to become ready: timed out waiting for the condition"
        (.errorString "timed out waiting for the condition"))
      (by decide)⟩

/-- C7: the calls of a run are a prefix of the five pipeline calls in their fixed
order, starting with the server start; no call is made twice; and a run without error
makes exactly the five calls. -/
theorem integrationTest_calls_in_order (p : Provider) (now : Clock) (n : String) :
    (IntegrationTest p now n).calls <+: pipelineCalls (effectiveName n) ∧
    (IntegrationTest p now n).calls ≠ [] ∧
    (IntegrationTest p now n).calls.Nodup ∧
    ((IntegrationTest p now n).err = none →
      (IntegrationTest p now n).calls = pipelineCalls (effectiveName n)) := by
  rcases run_cases p (effectiveName n) with ⟨k, c, hf⟩ | ⟨o1, o2, d, w, s, hs⟩
  · obtain ⟨desc, -, hrun⟩ := run_failsAt p now n k c hf
    rw [hrun]
    refine ⟨ List.take_prefix _ _, ?_, ?_, fun h => by cases h⟩
    · obtain ⟨hk1, hk5, -, -⟩ := hf
      interval_cases k <;> simp [pipelineCalls]
    · exact (pipelineCalls_nodup _).sublist (List.take_sublist _ _)
  · rw [run_ok p now n o1 o2 d w s hs]
    exact ⟨ List.prefix_refl _, by simp [pipelineCalls], pipelineCalls_nodup _, fun _ => rfl⟩

/-- C8: for a cluster name and three outputs there are a text ending in `Timestamp: `
and a text starting with a line break such that every successful run with that name and
those outputs reports the first text, its timestamp, then the second text; two such
runs with equal timestamps return equal reports. -/
theorem integrationTest_report_equal_up_to_timestamp (n d w s : String) :
    ∃ pre post, (∃ a, pre = a ++ "Timestamp: ") ∧ (∃ b, post = "\n" ++ b) ∧
      ∀ (p1 p2 : Provider) (now1 now2 : Clock) (o1 o2 o1' o2' : String),
        AllSucceed p1 (effectiveName n) o1 o2 d w s →
        AllSucceed p2 (effectiveName n) o1' o2' d w s →
        (IntegrationTest p1 now1 n).result
          = pre ++ now1 (pipelineCalls (effectiveName n)) ++ post ∧
        (IntegrationTest p2 now2 n).result
          = pre ++ now2 (pipelineCalls (effectiveName n)) ++ post ∧
        (now1 (pipelineCalls (effectiveName n)) = now2 (pipelineCalls (effectiveName n)) →
          (IntegrationTest p1 now1 n).result = (IntegrationTest p2 now2 n).result) := by
  refine ⟨"Integration Test Successful!\n\nCluster: " ++ effectiveName n ++ "\nTimestamp: ",
    "\n\n=== Deployment Output ===\n" ++ d ++ "\n\n=== Wait Output ===\n" ++ w
      ++ "\n\n=== ArgoCD Pods ===\n" ++ s,
    ⟨"Integration Test Successful!\n\nCluster: " ++ effectiveName n ++ "\n", ?_⟩,
    ⟨"\n=== Deployment Output ===\n" ++ d ++ "\n\n=== Wait Output ===\n" ++ w
      ++ "\n\n=== ArgoCD Pods ===\n" ++ s, ?_⟩, ?_⟩
  · apply String.ext
    simp
  · apply String.ext
    simp
  · intro p1 p2 now1 now2 o1 o2 o1' o2' h1 h2
    rw [run_ok p1 now1 n o1 o2 d w s h1, run_ok p2 now2 n o1' o2' d w s h2]
    refine ⟨?_, ?_, fun ht => ?_⟩
    · apply String.ext
      simp [reportText]
    · apply String.ext
      simp [reportText]
    · simp only [ht]

/-- Scenario A run twice, by providers that differ in the outputs of the first two
steps and at two different instants, as an instance of C8. -/
theorem integrationTest_report_equal_up_to_timestamp_witness :
    ∃ pre post, (∃ a, pre = a ++ "Timestamp: ") ∧ (∃ b, post = "\n" ++ b) ∧
      (IntegrationTest scenarioA (fixedClock "2024-12-20T10:15:30Z") "").result
        = pre ++ "2024-12-20T10:15:30Z" ++ post ∧
      (IntegrationTest
          (scripted
            [ .ok "started", .ok "namespace/argocd created",
              .ok "customresourcedefinition.apiextensions.k8s.io/applications.argoproj.io created",
              .ok "deployment.apps/argocd-server condition met",
              .ok "argocd-server-xyz   1/1   Running" ])
          (fixedClock "2025-01-02T03:04:05+01:00") "").result
        = pre ++ "2025-01-02T03:04:05+01:00" ++ post := by
  obtain ⟨pre, post, hpre, hpost, h⟩ :=
    integrationTest_report_equal_up_to_timestamp ""
      "customresourcedefinition.apiextensions.k8s.io/applications.argoproj.io created"
      "deployment.apps/argocd-server condition met" "argocd-server-xyz   1/1   Running"
  obtain ⟨h1, h2, -⟩ :=
    h scenarioA
      (scripted
        [ .ok "started", .ok "namespace/argocd created",
          .ok "customresourcedefinition.apiextensions.k8s.io/applications.argoproj.io created",
          .ok "deployment.apps/argocd-server condition met",
          .ok "argocd-server-xyz   1/1   Running" ])
      (fixedClock "2024-12-20T10:15:30Z") (fixedClock "2025-01-02T03:04:05+01:00")
      "" "ns/argocd created" "started" "namespace/argocd created"
      ⟨rfl, rfl, rfl, rfl, rfl⟩ ⟨rfl, rfl, rfl, rfl, rfl⟩
  exact ⟨pre, post, hpre, hpost, h1, h2⟩

/-- C9: whatever the cluster name and the outputs of the earlier steps, when the
first `k` steps succeed (`k` at most 4) the first `k` of the four fixed `kubectl`
commands are issued, as the fixed strings and in order, and no run issues anything but
a prefix of the four; with `k = 4` all four are issued, whatever the pod query answers.
A run that fails at step `j` issues exactly the first `j - 1` of them and a run in which
all steps succeed issues all four. Each fixed command names the namespace `argoCDNS`,
the manifest location is the URL template with `argoCDVersion` in it, and the wait
carries `--timeout=300s`. -/
theorem integrationTest_kubectl_commands (p : Provider) (now : Clock) (n : String) (k : Nat)
    (hk : k ≤ 4)
    (hprev : ∀ i, 1 ≤ i → i ≤ k → ∃ out, stepAnswer p (effectiveName n) i = some (.ok out)) :
    fixedCommands.take k <+: kubectlCommands (IntegrationTest p now n).calls ∧
    kubectlCommands (IntegrationTest p now n).calls <+: fixedCommands ∧
    (k = 4 → kubectlCommands (IntegrationTest p now n).calls = fixedCommands) ∧
    (∀ j c, FailsAt p (effectiveName n) j c →
      kubectlCommands (IntegrationTest p now n).calls = fixedCommands.take (j - 1)) ∧
    (∀ o1 o2 d w s, AllSucceed p (effectiveName n) o1 o2 d w s →
      kubectlCommands (IntegrationTest p now n).calls = fixedCommands) ∧
    fixedCommands =
      [ "create namespace " ++ argoCDNS,
        "apply -n " ++ argoCDNS ++ " -f "
          ++ ("https://raw.githubusercontent.com/argoproj/argo-cd/" ++ argoCDVersion
            ++ "/manifests/install.yaml"),
        "wait --for=condition=available " ++ "--timeout=300s" ++ " --all deployments -n "
          ++ argoCDNS,
        "get pods -n " ++ argoCDNS ] := by
  refine ⟨?_, ?_, ?_, fun j c hj => run_commands_failsAt p now n j c hj,
    fun o1 o2 d w s hs => run_commands_ok p now n o1 o2 d w s hs, by decide⟩
  · rcases run_cases p (effectiveName n) with ⟨j, c, hf⟩ | ⟨o1, o2, d, w, s, hs⟩
    · rw [run_commands_failsAt p now n j c hf]
      have hkj : k ≤ j - 1 := by
        by_contra hlt
        obtain ⟨out, hout⟩ := hprev j hf.1 (by omega)
        rw [hf.2.2.2] at hout
        cases hout
      exact List.take_prefix_take_left _ hkj
    · rw [run_commands_ok p now n o1 o2 d w s hs]
      exact List.take_prefix _ _
  · rcases run_cases p (effectiveName n) with ⟨j, c, hf⟩ | ⟨o1, o2, d, w, s, hs⟩
    · rw [run_commands_failsAt p now n j c hf]
      exact List.take_prefix _ _
    · rw [run_commands_ok p now n o1 o2 d w s hs]
  · intro hk4
    subst hk4
    rcases run_cases p (effectiveName n) with ⟨j, c, hf⟩ | ⟨o1, o2, d, w, s, hs⟩
    · rw [run_commands_failsAt p now n j c hf]
      have hj5 : j = 5 := by
        have hle := hf.2.1
        by_contra hne
        obtain ⟨out, hout⟩ := hprev j hf.1 (by omega)
        rw [hf.2.2.2] at hout
        cases hout
      subst hj5
      rfl
    · exact run_commands_ok p now n o1 o2 d w s hs

/-- A run whose first four steps succeed and whose pod query fails, as an instance of
C9: the run returns an error and has issued all four commands. -/
theorem integrationTest_kubectl_commands_witness :
    (IntegrationTest scenarioD (fixedClock "2024-12-20T10:15:30Z") "").err
      = some (.wrapError "failed to get ArgoCD status: connection refused"
          (.errorString "connection refused")) ∧
    kubectlCommands (IntegrationTest scenarioD (fixedClock "2024-12-20T10:15:30Z") "").calls
      = [ "create namespace argocd",
          "apply -n argocd -f https://raw.githubusercontent.com/argoproj/argo-cd/v2.13.2/manifests/install.yaml",
          "wait --for=condition=available --timeout=300s --all deployments -n argocd",
          "get pods -n argocd" ] :=
  ⟨by decide,
    (integrationTest_kubectl_commands scenarioD (fixedClock "2024-12-20T10:15:30Z") "" 4
      (by decide)
      (fun i h1 h4 => by
        have hi : i = 1 ∨ i = 2 ∨ i = 3 ∨ i = 4 := by omega
        rcases hi with hi | hi | hi | hi <;> subst hi <;> exact ⟨_, rfl⟩)).2.2.1 rfl⟩

/-- C10: two runs that fail at two different steps return errors with different
messages, whatever the two causes; and the description of one stage followed by `": "`
is never a prefix of the description of another stage followed by `": "`. -/
theorem integrationTest_stage_recoverable (p1 p2 : Provider) (now1 now2 : Clock)
    (n1 n2 : String) (i j : Nat) (c1 c2 : GoError)
    (hi : FailsAt p1 (effectiveName n1) i c1) (hj : FailsAt p2 (effectiveName n2) j c2)
    (hij : i ≠ j) :
    (∃ e1 e2, (IntegrationTest p1 now1 n1).err = some e1 ∧
      (IntegrationTest p2 now2 n2).err = some e2 ∧ e1.Error ≠ e2.Error) ∧
    ∃ di dj, stageDescriptions[i - 1]? = some di ∧ stageDescriptions[j - 1]? = some dj ∧
      di ≠ dj ∧ ¬ ((di ++ ": ").data <+: (dj ++ ": ").data) := by
  obtain ⟨di, hdi, hrun1⟩ := run_failsAt p1 now1 n1 i c1 hi
  obtain ⟨dj, hdj, hrun2⟩ := run_failsAt p2 now2 n2 j c2 hj
  have hne : i - 1 ≠ j - 1 := by
    have := hi.1
    have := hj.1
    omega
  refine ⟨⟨_, _, by rw [hrun1], by rw [hrun2], ?_⟩, di, dj, hdi, hdj, ?_, ?_⟩
  · exact stage_message_ne (i - 1) (j - 1) di dj _ _ hdi hdj hne
  · intro h
    exact stage_message_ne (i - 1) (j - 1) di dj "" "" hdi hdj hne (by rw [h])
  · rintro ⟨t, ht⟩
    refine stage_message_ne (i - 1) (j - 1) di dj ⟨t⟩ "" hdi hdj hne ?_
    apply String.ext
    simpa using ht

/-- Scenarios B and C as an instance of C10: a failure of the namespace creation and a
failure of the wait give different messages. -/
theorem integrationTest_stage_recoverable_witness :
    (∃ e1 e2, (IntegrationTest scenarioB (fixedClock "2024-12-20T10:15:30Z") "").err = some e1 ∧
      (IntegrationTest scenarioC (fixedClock "2024-12-20T10:15:30Z") "k3s").err = some e2 ∧
      e1.Error ≠ e2.Error) ∧
    ∃ di dj, stageDescriptions[2 - 1]? = some di ∧ stageDescriptions[4 - 1]? = some dj ∧
      di ≠ dj ∧ ¬ ((di ++ ": ").data <+: (dj ++ ": ").data) :=
  integrationTest_stage_recoverable scenarioB scenarioC (fixedClock "2024-12-20T10:15:30Z")
    (fixedClock "2024-12-20T10:15:30Z") "" "k3s" 2 4 (.errorString "already exists")
    (.errorString "timed out waiting for the condition")
    ⟨by decide, by decide,
      fun i h1 h2 => by
        have hi : i = 1 := by omega
        subst hi
        exact ⟨"", rfl⟩,
      rfl⟩
    ⟨by decide, by decide,
      fun i h1 h2 => by
        have hi : i = 1 ∨ i = 2 ∨ i = 3 := by omega
        rcases hi with hi | hi | hi <;> subst hi <;> exact ⟨_, rfl⟩,
      rfl⟩
    (by decide)

end Daggerk3
